import Mathlib

/-!
Verification of the flaskr blogging application (auth, blog and db
modules) against its natural-language specification.  The Python views
are shallowly embedded as pure state-passing functions over an explicit
database value; HTTP responses are reified in the `View` type, flash
messages as the optional string carried by `View.render`, and the
`abort(404)` / `abort(403)` exits as the `Err` type.
-/

namespace Flaskr

/-- HTTP request method of a view invocation. -/
inductive Method where
  | GET
  | POST
deriving DecidableEq

/-- A stored credential.  `werkzeug.generate_password_hash` produces a
salted hash; the constructor keeps the salt and the hashed text so that
`check_password_hash` can be modelled, and `plain` represents a
plaintext credential (never produced by the code). -/
inductive StoredPassword where
  | plain (text : String)
  | hashed (salt : Nat) (text : String)
deriving DecidableEq

/-- Models `werkzeug.security.generate_password_hash`: a salted one-way
hash of the password (the hashing itself is external to the repo). -/
def generate_password_hash (salt : Nat) (pw : String) : StoredPassword :=
  .hashed salt pw

/-- Models `werkzeug.security.check_password_hash`: verifies a candidate
password against a stored credential. -/
def check_password_hash (stored : StoredPassword) (pw : String) : Bool :=
  match stored with
  | .plain t => t == pw
  | .hashed _ t => t == pw

/-- A row of the `user` table: `user(id, username, password)`. -/
structure User where
  id : Nat
  username : String
  password : StoredPassword
deriving DecidableEq

/-- A row of the `post` table:
`post(id, title, body, created, author_id)`. -/
structure Post where
  id : Nat
  title : String
  body : String
  created : Nat
  author_id : Nat
deriving DecidableEq

/-- The relational store, together with the autoincrement counters and
the server clock that assigns `created` timestamps.  The `created`
default is modelled from the spec (`server-assigned at creation`); the
schema file itself is not part of the sources. -/
structure DB where
  users : List User
  posts : List Post
  nextUserId : Nat
  nextPostId : Nat
  now : Nat
deriving DecidableEq

/-- Well-formedness of the store, from the schema described by the
spec: primary keys are unique and `post.author_id` references an
existing user. -/
def DB.WF (db : DB) : Prop :=
  db.users.Pairwise (fun a b => a.id ≠ b.id) ∧
  db.posts.Pairwise (fun a b => a.id ≠ b.id) ∧
  ∀ p ∈ db.posts, ∃ u ∈ db.users, u.id = p.author_id

/-- A rendered HTTP response: either a redirect to a named endpoint or
a template render, optionally carrying a flashed error message.
Template payloads are out of scope (the spec treats rendering as an
external collaborator). -/
inductive View where
  | redirect (endpoint : String)
  | render (template : String) (flashed : Option String)
deriving DecidableEq

/-- A terminal HTTP error raised through `abort`: 404 or 403. -/
inductive Err where
  | notFound
  | forbidden
deriving DecidableEq

/-- The signed client-held session: a mapping from keys to stored ids,
as the code only ever stores `user_id`. -/
abbrev Session := List (String × Nat)

/-- Form data for the register and login views
(`request.form["username"]`, `request.form["password"]`). -/
structure AuthForm where
  username : String
  password : String
deriving DecidableEq

/-- Form data for the create and update views
(`request.form["title"]`, `request.form["body"]`). -/
structure PostForm where
  title : String
  body : String
deriving DecidableEq

/-- Result of a view wrapped by `login_required`: either the redirect
to the login page or the wrapped view's response. -/
inductive Wrapped (R : Type) where
  | redirectLogin
  | result (r : R)
deriving DecidableEq

/-- `flaskr.auth.login_required`: redirects anonymous users
(`g.user is None`) to the login page and otherwise calls the wrapped
view. -/
def login_required {A R : Type} (view : A → R) (g_user : Option User)
    (a : A) : Wrapped R :=
  match g_user with
  | none => .redirectLogin
  | some _ => .result (view a)

/-- `flaskr.auth.load_logged_in_user`: looks up the session's stored
`user_id` and resolves it against the `user` table; `none` when the id
is absent or the user no longer exists. -/
def load_logged_in_user (db : DB) (sess : Session) : Option User :=
  match sess.lookup "user_id" with
  | none => none
  | some uid => db.users.find? (fun u => u.id == uid)

/-- `flaskr.auth.register`: validates the form, rejects a taken
username, and otherwise inserts a user row storing
`generate_password_hash(password)`.  The random salt drawn by werkzeug
is passed explicitly. -/
def register (db : DB) (salt : Nat) (method : Method) (f : AuthForm) :
    DB × View :=
  match method with
  | .GET => (db, .render "auth/register.html" none)
  | .POST =>
    if f.username = "" then
      (db, .render "auth/register.html" (some "Username is required."))
    else if f.password = "" then
      (db, .render "auth/register.html" (some "Password is required."))
    else
      match db.users.find? (fun u => u.username == f.username) with
      | some _ =>
        (db, .render "auth/register.html"
          (some ("User " ++ f.username ++ " is already registered.")))
      | none =>
        ({ db with
            users := db.users ++
              [⟨db.nextUserId, f.username,
                generate_password_hash salt f.password⟩],
            nextUserId := db.nextUserId + 1 },
         .redirect "auth.login")

/-- `flaskr.auth.login`: looks the user up by username, verifies the
password hash, and on success clears the session and stores the user
id. -/
def login (db : DB) (sess : Session) (method : Method) (f : AuthForm) :
    Session × View :=
  match method with
  | .GET => (sess, .render "auth/login.html" none)
  | .POST =>
    match db.users.find? (fun u => u.username == f.username) with
    | none => (sess, .render "auth/login.html" (some "Incorrect username."))
    | some user =>
      if check_password_hash user.password f.password then
        ([("user_id", user.id)], .redirect "index")
      else
        (sess, .render "auth/login.html" (some "Incorrect password."))

/-- `flaskr.auth.logout`: clears the session. -/
def logout (_sess : Session) : Session × View :=
  ([], .redirect "index")

/-- A row of the query
`SELECT p.id, title, body, created, author_id, username FROM post p
JOIN user u ON p.author_id = u.id`. -/
structure PostRow where
  id : Nat
  title : String
  body : String
  created : Nat
  author_id : Nat
  username : String
deriving DecidableEq

/-- The joined row built from a post and its author's username. -/
def joinRow (p : Post) (uname : String) : PostRow :=
  ⟨p.id, p.title, p.body, p.created, p.author_id, uname⟩

/-- The row set of the `post JOIN user ON p.author_id = u.id` query,
row by row: a post contributes a row exactly when a matching user
exists. -/
def joinRows : List Post → List User → List PostRow
  | [], _ => []
  | p :: ps, us =>
    match us.find? (fun u => u.id == p.author_id) with
    | some u => joinRow p u.username :: joinRows ps us
    | none => joinRows ps us

/-- Comparator of `ORDER BY created DESC`: a row may precede another
when its timestamp is at least as large. -/
def createdDesc (a b : PostRow) : Prop := b.created ≤ a.created

instance instDecCreatedDesc : DecidableRel createdDesc :=
  fun a b => Nat.decLe b.created a.created

instance instTotalCreatedDesc : IsTotal PostRow createdDesc :=
  ⟨fun a b => Nat.le_total b.created a.created⟩

instance instTransCreatedDesc : IsTrans PostRow createdDesc :=
  ⟨fun _ _ _ h1 h2 => Nat.le_trans h2 h1⟩

/-- `flaskr.blog.index`: all posts joined with their author's username,
most recent first (`ORDER BY created DESC`). -/
def index (db : DB) : List PostRow :=
  (joinRows db.posts db.users).insertionSort createdDesc

/-- `flaskr.blog.get_post`: fetches the joined row for `id`, aborts 404
when the query returns no row, aborts 403 when `check_author` is set
and the current user (`g.user`) is not the author. -/
def get_post (db : DB) (g_user : User) (id : Nat)
    (check_author : Bool := true) : Except Err PostRow :=
  match (joinRows db.posts db.users).find? (fun r => r.id == id) with
  | none => .error .notFound
  | some post =>
    if check_author = true ∧ post.author_id ≠ g_user.id then
      .error .forbidden
    else
      .ok post

/-- `flaskr.blog.create` (POST path and GET path): validates the title
and inserts a post authored by the current user; `created` is
server-assigned (modelled from the spec, the schema default is not in
the sources). -/
def create (db : DB) (g_user : User) (method : Method) (f : PostForm) :
    DB × View :=
  match method with
  | .GET => (db, .render "blog/create.html" none)
  | .POST =>
    if f.title = "" then
      (db, .render "blog/create.html" (some "Title is required."))
    else
      ({ db with
          posts := db.posts ++
            [⟨db.nextPostId, f.title, f.body, db.now, g_user.id⟩],
          nextPostId := db.nextPostId + 1 },
       .redirect "blog.index")

/-- `flaskr.blog.update`: fetches the post with the author check (its
aborts propagate), validates the title, and overwrites title and body
of the row with the given id. -/
def update (db : DB) (g_user : User) (id : Nat) (method : Method)
    (f : PostForm) : DB × Except Err View :=
  match get_post db g_user id true with
  | .error e => (db, .error e)
  | .ok _ =>
    match method with
    | .GET => (db, .ok (.render "blog/update.html" none))
    | .POST =>
      if f.title = "" then
        (db, .ok (.render "blog/update.html" (some "Title is required.")))
      else
        ({ db with
            posts := db.posts.map (fun p =>
              if p.id = id then
                { p with title := f.title, body := f.body }
              else p) },
         .ok (.redirect "blog.index"))

/-- `flaskr.blog.delete`: fetches the post with the author check (its
aborts propagate) and deletes the row with the given id. -/
def delete (db : DB) (g_user : User) (id : Nat) :
    DB × Except Err View :=
  match get_post db g_user id true with
  | .error e => (db, .error e)
  | .ok _ =>
    ({ db with posts := db.posts.filter (fun p => p.id != id) },
     .ok (.redirect "blog.index"))

/-- A database connection handle; `closed` records whether
`close()` has been called on it. -/
structure Connection where
  handle : Nat
  closed : Bool
deriving DecidableEq

/-- The per-request application context `g`, caching at most one open
connection. -/
structure AppCtx where
  g_db : Option Connection
  nextHandle : Nat
deriving DecidableEq

/-- Modelled from the spec: `flaskr.db.get_db` (the `db.py` module is
not among the sources; only its tests and callers are).  Returns the
connection cached in the request context, opening a new one on first
use. -/
def get_db (ctx : AppCtx) : AppCtx × Connection :=
  match ctx.g_db with
  | some c => (ctx, c)
  | none =>
    let c : Connection := ⟨ctx.nextHandle, false⟩
    ({ ctx with g_db := some c, nextHandle := ctx.nextHandle + 1 }, c)

/-- Modelled from the spec: `flaskr.db.close_db`, run at request
teardown; pops the cached connection and closes it. -/
def close_db (ctx : AppCtx) : AppCtx × Option Connection :=
  match ctx.g_db with
  | some c => ({ ctx with g_db := none }, some { c with closed := true })
  | none => (ctx, none)

/-- Modelled from the spec: executing a query on a connection; a closed
connection fails with sqlite3 `ProgrammingError` wording rather than
silently reopening. -/
def Connection.execute (c : Connection) (_query : String) :
    Except String Unit :=
  if c.closed then
    .error "Cannot operate on a closed database."
  else
    .ok ()

lemma find?_append_left_none {α : Type} (p : α → Bool) (l1 l2 : List α)
    (h : ∀ x ∈ l1, ¬p x = true) :
    (l1 ++ l2).find? p = l2.find? p := by
  rw [List.find?_append, List.find?_eq_none.mpr h]
  rfl

lemma joinRows_find?_eq_none (users : List User) (i : Nat) :
    ∀ posts : List Post, (∀ p ∈ posts, p.id ≠ i) →
      (joinRows posts users).find? (fun r => r.id == i) = none := by
  intro posts
  induction posts with
  | nil => intro _; rfl
  | cons q ps ih =>
    intro h
    have hq : q.id ≠ i := h q (List.mem_cons_self q ps)
    have hps : ∀ p ∈ ps, p.id ≠ i := fun p hp => h p (List.mem_cons_of_mem q hp)
    unfold joinRows
    cases hfind : users.find? (fun u => u.id == q.author_id) with
    | none => exact ih hps
    | some u =>
      rw [List.find?_cons_of_neg]
      · exact ih hps
      · simp [joinRow, hq]

lemma joinRows_find?_eq_some (users : List User) (p : Post) (au : User)
    (hau : users.find? (fun u => u.id == p.author_id) = some au) :
    ∀ posts : List Post, posts.Pairwise (fun a b => a.id ≠ b.id) →
      p ∈ posts →
      (joinRows posts users).find? (fun r => r.id == p.id)
        = some (joinRow p au.username) := by
  intro posts
  induction posts with
  | nil => intro _ hp; cases hp
  | cons q ps ih =>
    intro hpw hp
    rcases List.mem_cons.mp hp with hq | hmem
    · subst hq
      unfold joinRows
      rw [hau]
      apply List.find?_cons_of_pos
      simp [joinRow]
    · have hqp : q.id ≠ p.id := (List.pairwise_cons.mp hpw).1 p hmem
      have hpw2 := (List.pairwise_cons.mp hpw).2
      unfold joinRows
      cases hfind : users.find? (fun u => u.id == q.author_id) with
      | none => exact ih hpw2 hmem
      | some u =>
        rw [List.find?_cons_of_neg]
        · exact ih hpw2 hmem
        · simp [joinRow, hqp]

lemma joinRow_mem_joinRows (users : List User) (p : Post) (au : User)
    (hau : users.find? (fun u => u.id == p.author_id) = some au) :
    ∀ posts : List Post, p ∈ posts →
      joinRow p au.username ∈ joinRows posts users := by
  intro posts
  induction posts with
  | nil => intro hp; cases hp
  | cons q ps ih =>
    intro hp
    rcases List.mem_cons.mp hp with hq | hmem
    · subst hq
      unfold joinRows
      rw [hau]
      exact List.mem_cons_self _ _
    · unfold joinRows
      cases hfind : users.find? (fun u => u.id == q.author_id) with
      | none => exact ih hmem
      | some u => exact List.mem_cons_of_mem _ (ih hmem)

lemma author_find? (users : List User) (aid : Nat)
    (h : ∃ u ∈ users, u.id = aid) :
    ∃ au, users.find? (fun u => u.id == aid) = some au ∧
      au ∈ users ∧ au.id = aid := by
  have hsome : (users.find? (fun u => u.id == aid)).isSome = true := by
    rw [List.find?_isSome]
    rcases h with ⟨u, hu, hid⟩
    exact ⟨u, hu, by simp [hid]⟩
  cases hfind : users.find? (fun u => u.id == aid) with
  | none => rw [hfind] at hsome; cases hsome
  | some au =>
    refine ⟨au, rfl, List.mem_of_find?_eq_some hfind, ?_⟩
    have hbeq := List.find?_some hfind
    simpa using hbeq

lemma get_post_of_no_post (db : DB) (g : User) (i : Nat) (c : Bool)
    (h : ∀ p ∈ db.posts, p.id ≠ i) :
    get_post db g i c = .error .notFound := by
  unfold get_post
  rw [joinRows_find?_eq_none db.users i db.posts h]

lemma get_post_row (db : DB) (hwf : db.WF) (g : User) (p : Post)
    (hp : p ∈ db.posts) (c : Bool) :
    ∃ au, au ∈ db.users ∧ au.id = p.author_id ∧
      get_post db g p.id c =
        (if c = true ∧ p.author_id ≠ g.id then .error .forbidden
         else .ok (joinRow p au.username)) := by
  obtain ⟨au, hau, hmem, hid⟩ :=
    author_find? db.users p.author_id (hwf.2.2 p hp)
  refine ⟨au, hmem, hid, ?_⟩
  unfold get_post
  rw [joinRows_find?_eq_some db.users p au hau db.posts hwf.2.1 hp]
  rfl

/-- Sample data used to instantiate the theorems: two users and one
post by each. -/
def alice : User := ⟨1, "alice", generate_password_hash 7 "pw1"⟩

def bob : User := ⟨2, "bob", generate_password_hash 8 "pw2"⟩

def post1 : Post := ⟨1, "Hi", "first body", 10, 1⟩

def post2 : Post := ⟨2, "Later", "second body", 20, 2⟩

def sampleDB : DB := ⟨[alice, bob], [post1, post2], 3, 3, 30⟩

instance instDecWF (db : DB) : Decidable db.WF := by
  unfold DB.WF
  infer_instance

/-- Claim C1: on a well-formed store, `get_post` aborts 404 when no
post has the requested id; aborts 403 when `check_author` is set and
the post's author is not the current user; and otherwise returns the
post joined with its author's username. -/
theorem get_post_spec (db : DB) (hwf : db.WF) (g : User) (i : Nat)
    (c : Bool) :
    ((∀ p ∈ db.posts, p.id ≠ i) → get_post db g i c = .error .notFound) ∧
    (∀ p ∈ db.posts, p.id = i → c = true → p.author_id ≠ g.id →
      get_post db g i c = .error .forbidden) ∧
    (∀ p ∈ db.posts, p.id = i → (c = false ∨ p.author_id = g.id) →
      ∃ au ∈ db.users, au.id = p.author_id ∧
        get_post db g i c = .ok (joinRow p au.username)) := by
  refine ⟨fun h => get_post_of_no_post db g i c h, ?_, ?_⟩
  · intro p hp hpi hc hne
    subst hpi
    obtain ⟨au, _, _, heq⟩ := get_post_row db hwf g p hp c
    rw [heq, if_pos ⟨hc, hne⟩]
  · intro p hp hpi hor
    subst hpi
    obtain ⟨au, hmem, hid, heq⟩ := get_post_row db hwf g p hp c
    refine ⟨au, hmem, hid, ?_⟩
    rw [heq, if_neg]
    rintro ⟨hc, hne⟩
    rcases hor with hcf | hida
    · rw [hcf] at hc; cases hc
    · exact hne hida

/-- Witness for C1: fetching post 1 with the author check as bob (not
the author) aborts 403. -/
theorem get_post_spec_witness :
    get_post sampleDB bob 1 true = .error .forbidden :=
  (get_post_spec sampleDB (by decide) bob 1 true).2.1 post1
    (by decide) rfl rfl (by decide)

/-- Claim C2: on a well-formed store, `update` and `delete` invoked on
an existing post by a non-author abort 403 and leave the store
unchanged. -/
theorem update_delete_nonauthor (db : DB) (hwf : db.WF) (g : User)
    (P : Post) (hP : P ∈ db.posts) (hne : P.author_id ≠ g.id)
    (m : Method) (f : PostForm) :
    update db g P.id m f = (db, .error .forbidden) ∧
    delete db g P.id = (db, .error .forbidden) := by
  obtain ⟨au, _, _, heq⟩ := get_post_row db hwf g P hP true
  rw [if_pos ⟨rfl, hne⟩] at heq
  constructor
  · unfold update; rw [heq]
  · unfold delete; rw [heq]

/-- Witness for C2: bob can neither update nor delete alice's post 1,
and the store is returned unchanged. -/
theorem update_delete_nonauthor_witness :
    update sampleDB bob 1 .POST ⟨"t", "b"⟩ = (sampleDB, .error .forbidden) ∧
    delete sampleDB bob 1 = (sampleDB, .error .forbidden) :=
  update_delete_nonauthor sampleDB (by decide) bob post1 (by decide)
    (by decide) .POST ⟨"t", "b"⟩

/-- Claim C3: `update` propagates the 404/403 aborts of
`get_post(id, check_author=true)`; with the post fetched it rejects an
empty title with the flashed validation error; and otherwise it
overwrites exactly the title and body of the addressed post, leaving
every post's `created` and `author_id` (and every other post, and the
user table) unchanged. -/
theorem update_spec (db : DB) (g : User) (i : Nat) (f : PostForm) :
    (∀ e, get_post db g i true = .error e →
      update db g i .POST f = (db, .error e)) ∧
    (∀ r, get_post db g i true = .ok r → f.title = "" →
      update db g i .POST f =
        (db, .ok (.render "blog/update.html" (some "Title is required.")))) ∧
    (∀ r, get_post db g i true = .ok r → f.title ≠ "" →
      (update db g i .POST f).2 = .ok (.redirect "blog.index") ∧
      (update db g i .POST f).1.users = db.users ∧
      ∀ p ∈ db.posts, ∃ p2 ∈ (update db g i .POST f).1.posts,
        p2.id = p.id ∧ p2.created = p.created ∧
        p2.author_id = p.author_id ∧
        (p.id = i → p2.title = f.title ∧ p2.body = f.body) ∧
        (p.id ≠ i → p2 = p)) := by
  refine ⟨?_, ?_, ?_⟩
  · intro e he
    unfold update
    rw [he]
  · intro r hr ht
    unfold update
    rw [hr, if_pos ht]
  · intro r hr ht
    unfold update
    rw [hr, if_neg ht]
    refine ⟨rfl, rfl, ?_⟩
    intro p hp
    by_cases hpi : p.id = i
    · refine ⟨{ p with title := f.title, body := f.body }, ?_, rfl, rfl,
        rfl, fun _ => ⟨rfl, rfl⟩, fun hne => absurd hpi hne⟩
      have := List.mem_map_of_mem
        (fun p =>
          if p.id = i then { p with title := f.title, body := f.body }
          else p) hp
      simpa [hpi] using this
    · refine ⟨p, ?_, rfl, rfl, rfl, fun hip => absurd hip hpi, fun _ => rfl⟩
      have := List.mem_map_of_mem
        (fun p =>
          if p.id = i then { p with title := f.title, body := f.body }
          else p) hp
      simpa [hpi] using this

/-- Witness for C3: alice updates her post 1 and is redirected to the
index. -/
theorem update_spec_witness :
    (update sampleDB alice 1 .POST ⟨"New title", "new body"⟩).2
      = .ok (.redirect "blog.index") :=
  ((update_spec sampleDB alice 1 ⟨"New title", "new body"⟩).2.2
    (joinRow post1 "alice") rfl (by decide)).1

lemma register_conflict_eq (db : DB) (salt : Nat) (f : AuthForm)
    (hu : f.username ≠ "") (hp : f.password ≠ "")
    (hex : ∃ u ∈ db.users, u.username = f.username) :
    register db salt .POST f =
      (db, .render "auth/register.html"
        (some ("User " ++ f.username ++ " is already registered."))) := by
  have hsome :
      (db.users.find? (fun u => u.username == f.username)).isSome = true := by
    rw [List.find?_isSome]
    rcases hex with ⟨u, hmem, he⟩
    exact ⟨u, hmem, by simp [he]⟩
  simp only [register]
  rw [if_neg hu, if_neg hp]
  cases hfind : db.users.find? (fun u => u.username == f.username) with
  | none => rw [hfind] at hsome; cases hsome
  | some u => rfl

lemma register_success_eq (db : DB) (salt : Nat) (f : AuthForm)
    (hu : f.username ≠ "") (hp : f.password ≠ "")
    (hfree : ∀ u ∈ db.users, u.username ≠ f.username) :
    register db salt .POST f =
      ({ db with
          users := db.users ++
            [⟨db.nextUserId, f.username,
              generate_password_hash salt f.password⟩],
          nextUserId := db.nextUserId + 1 },
       .redirect "auth.login") := by
  have hnone :
      db.users.find? (fun u => u.username == f.username) = none := by
    rw [List.find?_eq_none]
    intro u hmem
    simp [hfree u hmem]
  simp only [register]
  rw [if_neg hu, if_neg hp, hnone]

/-- Claim C4: `register` (POST) rejects an empty username, then an
empty password, then an already-taken username (in particular any
second registration of a stored username), and otherwise appends one
user row storing the salted hash of the password, never the
plaintext. -/
theorem register_spec (db : DB) (salt : Nat) (f : AuthForm) :
    (f.username = "" →
      register db salt .POST f =
        (db, .render "auth/register.html" (some "Username is required."))) ∧
    (f.username ≠ "" → f.password = "" →
      register db salt .POST f =
        (db, .render "auth/register.html" (some "Password is required."))) ∧
    (f.username ≠ "" → f.password ≠ "" →
      (∃ u ∈ db.users, u.username = f.username) →
      register db salt .POST f =
        (db, .render "auth/register.html"
          (some ("User " ++ f.username ++ " is already registered.")))) ∧
    (f.username ≠ "" → f.password ≠ "" →
      (∀ u ∈ db.users, u.username ≠ f.username) →
      ∃ newu,
        (register db salt .POST f).1.users = db.users ++ [newu] ∧
        (register db salt .POST f).2 = .redirect "auth.login" ∧
        newu.username = f.username ∧
        newu.password = generate_password_hash salt f.password ∧
        newu.password ≠ .plain f.password ∧
        ∀ salt2 pw2, pw2 ≠ "" →
          register (register db salt .POST f).1 salt2 .POST
              ⟨f.username, pw2⟩ =
            ((register db salt .POST f).1,
             .render "auth/register.html"
               (some ("User " ++ f.username ++ " is already registered.")))) := by
  refine ⟨?_, ?_, ?_, ?_⟩
  · intro hu
    simp only [register]
    rw [if_pos hu]
  · intro hu hp
    simp only [register]
    rw [if_neg hu, if_pos hp]
  · intro hu hp hex
    exact register_conflict_eq db salt f hu hp hex
  · intro hu hp hfree
    rw [register_success_eq db salt f hu hp hfree]
    refine ⟨⟨db.nextUserId, f.username,
      generate_password_hash salt f.password⟩,
      rfl, rfl, rfl, rfl, by simp [generate_password_hash], ?_⟩
    intro salt2 pw2 hpw2
    apply register_conflict_eq
    · exact hu
    · exact hpw2
    · exact ⟨⟨db.nextUserId, f.username,
        generate_password_hash salt f.password⟩,
        by simp, rfl⟩

/-- Witness for C4: registering a fresh username succeeds and stores
the hashed password; a second registration of it conflicts. -/
theorem register_spec_witness :
    ∃ newu,
      (register sampleDB 9 .POST ⟨"carol", "pw3"⟩).1.users
          = sampleDB.users ++ [newu] ∧
      (register sampleDB 9 .POST ⟨"carol", "pw3"⟩).2
          = .redirect "auth.login" ∧
      newu.username = "carol" ∧
      newu.password = generate_password_hash 9 "pw3" ∧
      newu.password ≠ .plain "pw3" ∧
      ∀ salt2 pw2, pw2 ≠ "" →
        register (register sampleDB 9 .POST ⟨"carol", "pw3"⟩).1 salt2 .POST
            ⟨"carol", pw2⟩ =
          ((register sampleDB 9 .POST ⟨"carol", "pw3"⟩).1,
           .render "auth/register.html"
             (some ("User " ++ "carol" ++ " is already registered."))) :=
  (register_spec sampleDB 9 ⟨"carol", "pw3"⟩).2.2.2
    (by decide) (by decide) (by decide)

/-- Claim C5: `login` (POST) flashes the incorrect-username error when
no user matches, the incorrect-password error when hash verification
fails, and otherwise binds the session to the user's id; moreover any
freshly registered credential pair logs in, while any other password
for that username is rejected. -/
theorem login_spec (db : DB) (sess : Session) (f : AuthForm) :
    ((∀ u ∈ db.users, u.username ≠ f.username) →
      login db sess .POST f =
        (sess, .render "auth/login.html" (some "Incorrect username."))) ∧
    (∀ u, db.users.find? (fun x => x.username == f.username) = some u →
      (check_password_hash u.password f.password = false →
        login db sess .POST f =
          (sess, .render "auth/login.html" (some "Incorrect password."))) ∧
      (check_password_hash u.password f.password = true →
        login db sess .POST f = ([("user_id", u.id)], .redirect "index"))) ∧
    (∀ uname pw salt, uname ≠ "" → pw ≠ "" →
      (∀ u ∈ db.users, u.username ≠ uname) →
      login (register db salt .POST ⟨uname, pw⟩).1 sess .POST ⟨uname, pw⟩ =
        ([("user_id", db.nextUserId)], .redirect "index") ∧
      ∀ wrong, wrong ≠ pw →
        login (register db salt .POST ⟨uname, pw⟩).1 sess .POST
            ⟨uname, wrong⟩ =
          (sess, .render "auth/login.html" (some "Incorrect password."))) := by
  refine ⟨?_, ?_, ?_⟩
  · intro hfree
    have hnone :
        db.users.find? (fun u => u.username == f.username) = none := by
      rw [List.find?_eq_none]
      intro u hmem
      simp [hfree u hmem]
    simp only [login]
    rw [hnone]
  · intro u hfind
    constructor
    · intro hbad
      simp [login, hfind, hbad]
    · intro hgood
      simp [login, hfind, hgood]
  · intro uname pw salt hu hp hfree
    rw [register_success_eq db salt ⟨uname, pw⟩ hu hp hfree]
    have hskip : ∀ x ∈ db.users,
        ¬((fun u => u.username == uname) x) = true := by
      intro x hx
      simp [hfree x hx]
    have hfound :
        (db.users ++
          [(⟨db.nextUserId, uname,
            generate_password_hash salt pw⟩ : User)]).find?
            (fun u => u.username == uname)
          = some ⟨db.nextUserId, uname, generate_password_hash salt pw⟩ := by
      rw [find?_append_left_none _ _ _ hskip]
      apply List.find?_cons_of_pos
      simp
    constructor
    · simp only [login]
      rw [hfound]
      simp [check_password_hash, generate_password_hash]
    · intro wrong hw
      simp only [login]
      rw [hfound]
      have hne : pw ≠ wrong := fun h => hw h.symm
      simp [check_password_hash, generate_password_hash, hne]

/-- Witness for C5: after registering carol, her password logs in and
a wrong password is rejected. -/
theorem login_spec_witness :
    login (register sampleDB 9 .POST ⟨"carol", "pw3"⟩).1 [] .POST
        ⟨"carol", "pw3"⟩ =
      ([("user_id", sampleDB.nextUserId)], .redirect "index") ∧
    ∀ wrong, wrong ≠ "pw3" →
      login (register sampleDB 9 .POST ⟨"carol", "pw3"⟩).1 [] .POST
          ⟨"carol", wrong⟩ =
        ([], .render "auth/login.html" (some "Incorrect password.")) :=
  (login_spec sampleDB [] ⟨"carol", "pw3"⟩).2.2 "carol" "pw3" 9
    (by decide) (by decide) (by decide)

/-- Claim C6: `login_required` short-circuits to the login redirect
when no current user is resolved — without invoking the wrapped view,
as witnessed by the result being independent of it — and otherwise
returns exactly the wrapped view's response. -/
theorem login_required_spec :
    ∀ (A R : Type) (view : A → R) (a : A),
      login_required view none a = Wrapped.redirectLogin ∧
      (∀ view2 : A → R,
        login_required view2 (none : Option User) a =
          login_required view none a) ∧
      ∀ u : User, login_required view (some u) a = .result (view a) := by
  intro A R view a
  exact ⟨rfl, fun _ => rfl, fun _ => rfl⟩

/-- Witness for C6: an anonymous request to a protected view is
redirected to the login page. -/
theorem login_required_spec_witness :
    login_required (fun n : Nat => n + 1) none 5 = Wrapped.redirectLogin :=
  (login_required_spec Nat Nat (fun n => n + 1) 5).1

/-- Claim C7: on a well-formed store, `index` is ordered by `created`
descending (every element is at least as recent as all later ones, in
particular each adjacent pair), and it contains every post joined with
its author's username. -/
theorem index_spec (db : DB) (hwf : db.WF) :
    (index db).Pairwise createdDesc ∧
    ∀ p ∈ db.posts, ∃ au ∈ db.users, au.id = p.author_id ∧
      joinRow p au.username ∈ index db := by
  constructor
  · exact List.sorted_insertionSort createdDesc _
  · intro p hp
    obtain ⟨au, hau, hmem, hid⟩ :=
      author_find? db.users p.author_id (hwf.2.2 p hp)
    refine ⟨au, hmem, hid, ?_⟩
    have hmem2 : joinRow p au.username ∈ joinRows db.posts db.users :=
      joinRow_mem_joinRows db.users p au hau db.posts hp
    exact ((List.perm_insertionSort createdDesc _).mem_iff).mpr hmem2

/-- Witness for C7: post 1 appears in the sample index joined with its
author's username. -/
theorem index_spec_witness :
    ∃ au ∈ sampleDB.users, au.id = post1.author_id ∧
      joinRow post1 au.username ∈ index sampleDB :=
  (index_spec sampleDB (by decide)).2 post1 (by decide)

/-- Claim C8: `create` (POST) rejects an empty title with the flashed
validation error and inserts nothing; otherwise it appends exactly one
post, authored by the current user, with the server-assigned `created`
timestamp, leaving the user table unchanged. -/
theorem create_spec (db : DB) (g : User) (f : PostForm) :
    (f.title = "" →
      create db g .POST f =
        (db, .render "blog/create.html" (some "Title is required."))) ∧
    (f.title ≠ "" →
      ∃ newp,
        (create db g .POST f).1.posts = db.posts ++ [newp] ∧
        newp.author_id = g.id ∧ newp.created = db.now ∧
        newp.title = f.title ∧ newp.body = f.body ∧
        (create db g .POST f).1.users = db.users ∧
        (create db g .POST f).2 = .redirect "blog.index") := by
  constructor
  · intro ht
    simp only [create]
    rw [if_pos ht]
  · intro ht
    have hstep : create db g .POST f =
        ({ db with
            posts := db.posts ++
              [⟨db.nextPostId, f.title, f.body, db.now, g.id⟩],
            nextPostId := db.nextPostId + 1 },
         .redirect "blog.index") := by
      simp only [create]
      rw [if_neg ht]
    rw [hstep]
    exact ⟨⟨db.nextPostId, f.title, f.body, db.now, g.id⟩,
      rfl, rfl, rfl, rfl, rfl, rfl, rfl⟩

/-- Witness for C8: alice creates a post and exactly one row, authored
by her and stamped with the server clock, is appended. -/
theorem create_spec_witness :
    ∃ newp,
      (create sampleDB alice .POST ⟨"Third", "third body"⟩).1.posts
          = sampleDB.posts ++ [newp] ∧
      newp.author_id = alice.id ∧ newp.created = sampleDB.now ∧
      newp.title = "Third" ∧ newp.body = "third body" ∧
      (create sampleDB alice .POST ⟨"Third", "third body"⟩).1.users
          = sampleDB.users ∧
      (create sampleDB alice .POST ⟨"Third", "third body"⟩).2
          = .redirect "blog.index" :=
  (create_spec sampleDB alice ⟨"Third", "third body"⟩).2 (by decide)

/-- Claim C9: within one request context `get_db` is idempotent — the
second call returns the identical cached connection and leaves the
context untouched — and once teardown has closed the connection, any
execute on it fails with a message containing the word closed instead
of silently reopening. -/
theorem db_lifecycle_spec (ctx : AppCtx) :
    (get_db (get_db ctx).1).2 = (get_db ctx).2 ∧
    (get_db (get_db ctx).1).1 = (get_db ctx).1 ∧
    ∀ c, (close_db ctx).2 = some c →
      c.closed = true ∧
      ∀ q, ∃ pre suf,
        c.execute q = .error (pre ++ "closed" ++ suf) := by
  refine ⟨?_, ?_, ?_⟩
  · cases hctx : ctx.g_db <;> simp [get_db, hctx]
  · cases hctx : ctx.g_db <;> simp [get_db, hctx]
  · intro c hc
    cases hctx : ctx.g_db with
    | none => rw [close_db, hctx] at hc; cases hc
    | some c0 =>
      rw [close_db, hctx] at hc
      have hceq : c = { c0 with closed := true } := by
        cases hc
        rfl
      subst hceq
      refine ⟨rfl, fun q => ⟨"Cannot operate on a ", " database.", ?_⟩⟩
      rfl

/-- Witness for C9: closing the connection opened in a fresh context
makes execute fail with the closed-database error. -/
theorem db_lifecycle_spec_witness :
    (⟨0, true⟩ : Connection).closed = true ∧
    ∀ q, ∃ pre suf,
      Connection.execute ⟨0, true⟩ q = .error (pre ++ "closed" ++ suf) :=
  (db_lifecycle_spec (get_db ⟨none, 0⟩).1).2.2 ⟨0, true⟩ rfl

/-- Claim C10: a successful login discards the entire pre-existing
session and leaves exactly the single `user_id` binding for the
authenticated user. -/
theorem login_session_spec (db : DB) (sess : Session) (f : AuthForm)
    (u : User)
    (hfind : db.users.find? (fun x => x.username == f.username) = some u)
    (hpw : check_password_hash u.password f.password = true) :
    (login db sess .POST f).1 = [("user_id", u.id)] ∧
    (login db sess .POST f).2 = .redirect "index" := by
  constructor <;> simp [login, hfind, hpw]

/-- Witness for C10: logging in as alice from a session holding stale
keys leaves exactly her `user_id` binding. -/
theorem login_session_spec_witness :
    (login sampleDB [("junk", 9), ("user_id", 2)] .POST
        ⟨"alice", "pw1"⟩).1 = [("user_id", alice.id)] ∧
    (login sampleDB [("junk", 9), ("user_id", 2)] .POST
        ⟨"alice", "pw1"⟩).2 = .redirect "index" :=
  login_session_spec sampleDB [("junk", 9), ("user_id", 2)]
    ⟨"alice", "pw1"⟩ alice rfl rfl

end Flaskr
